import Mathlib

/-!
Shallow embedding of the budget-management core
(`campaigns/models.py`, `campaigns/services.py`, `campaigns/tasks.py`,
`campaigns/management/commands/reset_budgets.py`).

Monetary values are fixed-point decimals with two fractional digits; we
model them exactly as integers in cents (`Money := Int`).  Dates are
modelled as `(month, day-of-month)` pairs; the monthly reset's guard
reads the `day` component the way the Python code reads
`timezone.now().date().day`.  Times of day are minutes since midnight,
weekdays 0–6 with Monday = 0 as in Python's `date.weekday()`.

Each campaign record bundles the campaign row with the `Spend` rows and
`DaypartingSchedule` rows that reference it (the foreign-key partition of
those tables).  The database is a list of such records; `campaign_id` is
the position in the list.
-/

namespace BudgetSystem

/-- Exact currency amount in cents (`DecimalField(decimal_places=2)`). -/
abbrev Money := Int

/-- A calendar date: the month (an abstract index) and the day of month.
`monthly_reset` reads `current_date.day`. -/
structure Date where
  month : Nat
  day : Nat
deriving DecidableEq, Repr

/-- Embeds `Campaign.Status` from `models.py`. -/
inductive Status where
  | ACTIVE
  | INACTIVE
  | PAUSED
deriving DecidableEq, Repr

/-- Embeds `Campaign.PauseReason` from `models.py`. -/
inductive PauseReason where
  | DAILY_BUDGET_EXCEEDED
  | MONTHLY_BUDGET_EXCEEDED
  | OUTSIDE_DAYPARTING_HOURS
  | MANUAL_PAUSE
deriving DecidableEq, Repr

/-- The mutable columns of a `Campaign` row used by the services
(budgets, status, pause reason). -/
structure Campaign where
  status : Status
  daily_budget : Money
  monthly_budget : Money
  pause_reason : Option PauseReason
deriving DecidableEq, Repr

/-- A `Spend` row for one campaign: its date and the two accrual fields. -/
structure SpendRow where
  date : Date
  daily_spend : Money
  monthly_spend : Money
deriving DecidableEq, Repr

/-- A `DaypartingSchedule` row: weekday 0–6, start/end minutes since
midnight, active flag. -/
structure Schedule where
  day_of_week : Nat
  start_time : Nat
  end_time : Nat
  is_active : Bool
deriving DecidableEq, Repr

/-- One campaign together with its `Spend` rows and dayparting
schedules (the rows of those tables whose foreign key points at it). -/
structure CampaignRec where
  camp : Campaign
  spends : List SpendRow
  schedules : List Schedule
deriving DecidableEq, Repr

/-- The relevant database state: the list of campaign records; the
campaign id is the index in the list. -/
abbrev DB := List CampaignRec

/-- A newly created campaign: Django defaults `status = INACTIVE`,
`pause_reason = NULL` (`models.py`, `Campaign.status` default). -/
def Campaign.mk_default (db mb : Money) : Campaign :=
  { status := Status.INACTIVE, daily_budget := db, monthly_budget := mb,
    pause_reason := none }

/-- Embeds `Campaign.activate` (`models.py` line 126): set status ACTIVE and
clear the pause reason. -/
def Campaign.activate (c : Campaign) : Campaign :=
  { c with status := Status.ACTIVE, pause_reason := none }

/-- Embeds `Campaign.pause` (`models.py` line 133): set status PAUSED and set
the pause reason. -/
def Campaign.pause (c : Campaign) (reason : PauseReason) : Campaign :=
  { c with status := Status.PAUSED, pause_reason := some reason }

/-- Embeds `Campaign.get_current_spend` (`models.py` line 110): the first
`Spend` row of this campaign whose date is today. -/
def CampaignRec.get_current_spend (today : Date) (r : CampaignRec) :
    Option SpendRow :=
  (r.spends.filter (fun s => s.date = today)).head?

/-- Embeds `Campaign.is_budget_available` (`models.py` line 115): true when no
spend row exists for today, otherwise both strict comparisons must
hold. -/
def CampaignRec.is_budget_available (today : Date) (r : CampaignRec) : Bool :=
  match r.get_current_spend today with
  | none => true
  | some spend =>
      let daily_available := spend.daily_spend < r.camp.daily_budget
      let monthly_available := spend.monthly_spend < r.camp.monthly_budget
      daily_available && monthly_available

/-- Embeds `Campaign.is_within_dayparting_hours` (`models.py` line 140): fetch
the active schedules for today's weekday; if none exist return true,
otherwise return whether the current time lies in `[start, end]` of
some schedule. -/
def CampaignRec.is_within_dayparting_hours (day_of_week current_time : Nat)
    (r : CampaignRec) : Bool :=
  let schedules := r.schedules.filter
    (fun s => s.day_of_week = day_of_week && s.is_active)
  if schedules.isEmpty then
    true
  else
    schedules.any (fun s => s.start_time ≤ current_time &&
      current_time ≤ s.end_time)

/-- Embeds `Spend.add_spend` (`models.py` line 192): increment both accrual
fields by the amount. -/
def SpendRow.add_spend (amount : Money) (s : SpendRow) : SpendRow :=
  { s with daily_spend := s.daily_spend + amount,
           monthly_spend := s.monthly_spend + amount }

/-- Update the first element of a list satisfying `p` (the row that
`filter(...).first()` returns), leaving the rest unchanged. -/
def updateFirst (p : α → Bool) (f : α → α) : List α → List α
  | [] => []
  | a :: as => if p a then f a :: as else a :: updateFirst p f as

/-- Embeds `check_budget_limits` (`services.py` line 56) restricted to the one
campaign record it touches: if no spend row exists for today return
unchanged; else pause on daily overrun (only from ACTIVE), else pause on
monthly overrun (only from ACTIVE), else re-admit a budget-paused
campaign when `is_budget_available`. -/
def check_budget_limits (today : Date) (r : CampaignRec) : CampaignRec :=
  match r.get_current_spend today with
  | none => r
  | some spend =>
      if spend.daily_spend ≥ r.camp.daily_budget then
        if r.camp.status = Status.ACTIVE then
          { r with camp := r.camp.pause PauseReason.DAILY_BUDGET_EXCEEDED }
        else r
      else if spend.monthly_spend ≥ r.camp.monthly_budget then
        if r.camp.status = Status.ACTIVE then
          { r with camp := r.camp.pause PauseReason.MONTHLY_BUDGET_EXCEEDED }
        else r
      else if r.camp.status = Status.PAUSED &&
          (r.camp.pause_reason = some PauseReason.DAILY_BUDGET_EXCEEDED ||
           r.camp.pause_reason = some PauseReason.MONTHLY_BUDGET_EXCEEDED) then
        if r.is_budget_available today then
          { r with camp := r.camp.activate }
        else r
      else r

/-- The get-or-create step of `track_spend` (`services.py` line 31):
return the record with a spend row for today present, creating a zeroed
one when absent. -/
def get_or_create_today_spend (today : Date) (r : CampaignRec) : CampaignRec :=
  if r.spends.any (fun s => s.date = today) then r
  else { r with spends :=
    r.spends ++ [{ date := today, daily_spend := 0, monthly_spend := 0 }] }

/-- Embeds `track_spend` (`services.py` line 17) restricted to the one campaign
record it touches: get-or-create today's spend row, `add_spend` the
amount to it, then `check_budget_limits`. -/
def track_spend (today : Date) (amount : Money) (r : CampaignRec) :
    CampaignRec :=
  let r1 := get_or_create_today_spend today r
  let newSpends :=
    updateFirst (fun s => s.date = today) (SpendRow.add_spend amount) r1.spends
  check_budget_limits today { r1 with spends := newSpends }

/-- Zero the `daily_spend` field of one spend row
(the per-row effect of `Spend.objects.all().update(daily_spend=0)`). -/
def SpendRow.zero_daily (s : SpendRow) : SpendRow :=
  { s with daily_spend := 0 }

/-- Zero the `monthly_spend` field of one spend row. -/
def SpendRow.zero_monthly (s : SpendRow) : SpendRow :=
  { s with monthly_spend := 0 }

/-- The bulk update of `daily_reset` applied to one campaign record. -/
def CampaignRec.zero_daily_spends (r : CampaignRec) : CampaignRec :=
  { r with spends := r.spends.map SpendRow.zero_daily }

/-- The bulk update of `monthly_reset` applied to one campaign record. -/
def CampaignRec.zero_monthly_spends (r : CampaignRec) : CampaignRec :=
  { r with spends := r.spends.map SpendRow.zero_monthly }

/-- The reactivation loop of `daily_reset` applied to one record: a
campaign paused with DAILY_BUDGET_EXCEEDED is activated when
`is_budget_available`. -/
def CampaignRec.readmit_daily (today : Date) (r : CampaignRec) : CampaignRec :=
  if r.camp.status = Status.PAUSED &&
      r.camp.pause_reason = some PauseReason.DAILY_BUDGET_EXCEEDED then
    if r.is_budget_available today then { r with camp := r.camp.activate }
    else r
  else r

/-- The reactivation loop of `monthly_reset` applied to one record. -/
def CampaignRec.readmit_monthly (today : Date) (r : CampaignRec) :
    CampaignRec :=
  if r.camp.status = Status.PAUSED &&
      r.camp.pause_reason = some PauseReason.MONTHLY_BUDGET_EXCEEDED then
    if r.is_budget_available today then { r with camp := r.camp.activate }
    else r
  else r

/-- Embeds `daily_reset` (`services.py` line 151): zero every `daily_spend`
field of every spend row, then reactivate each campaign paused for
DAILY_BUDGET_EXCEEDED whose budget is available.  Each phase only reads
and writes the record it is applied to, so the two sequential database
passes are the two sequential `map`s. -/
def daily_reset (today : Date) (db : DB) : DB :=
  (db.map CampaignRec.zero_daily_spends).map
    (CampaignRec.readmit_daily today)

/-- Embeds `monthly_reset` (`services.py` line 176): a no-op unless today is
the first day of the month, otherwise zero every `monthly_spend` field
and reactivate each campaign paused for MONTHLY_BUDGET_EXCEEDED whose
budget is available.  There is no force parameter. -/
def monthly_reset (today : Date) (db : DB) : DB :=
  if today.day ≠ 1 then db
  else
    (db.map CampaignRec.zero_monthly_spends).map
      (CampaignRec.readmit_monthly today)

/-- Embeds `reset_all_budgets_task` (`tasks.py` line 157): zero both spend
fields on every spend row, then activate every PAUSED campaign
unconditionally (no budget-availability check, any pause reason). -/
def reset_all_budgets (db : DB) : DB :=
  let db1 := db.map (fun r =>
    { r with spends := r.spends.map (fun s =>
        { s with daily_spend := 0, monthly_spend := 0 }) })
  db1.map (fun r =>
    if r.camp.status = Status.PAUSED then { r with camp := r.camp.activate }
    else r)

/-- The synchronous path of the `reset_budgets` management command
(`reset_budgets.py` line 35): return unchanged when today is not the
first of the month and `--force` was not given; otherwise zero both
spend fields of every row and activate every PAUSED campaign. -/
def reset_budgets_handle (force : Bool) (today : Date) (db : DB) : DB :=
  if !force && today.day ≠ 1 then db
  else
    let db1 := db.map (fun r =>
      { r with spends := r.spends.map (fun s =>
          { s with daily_spend := 0, monthly_spend := 0 }) })
    db1.map (fun r =>
      if r.camp.status = Status.PAUSED then { r with camp := r.camp.activate }
      else r)

/-- Modelled from the spec: the spec describes `monthlyReset(force)` as
"no-op unless invoked on the first calendar day of the month ...
otherwise identical shape to dailyReset but for `monthly_spend` and
MONTHLY_BUDGET_EXCEEDED", with "force" bypassing the day-of-month guard.
The source's `monthly_reset` has no force parameter, so this definition
renders the spec's words, to be compared with what the code offers. -/
def spec_monthly_reset (force : Bool) (today : Date) (db : DB) : DB :=
  if today.day ≠ 1 && !force then db
  else
    (db.map CampaignRec.zero_monthly_spends).map
      (CampaignRec.readmit_monthly today)

/-- Apply a function to the element at index `i`, leaving other
positions unchanged (one campaign row updated in place). -/
def modifyAt (f : α → α) : Nat → List α → List α
  | _, [] => []
  | 0, a :: as => f a :: as
  | n + 1, a :: as => a :: modifyAt f n as

/-- The snapshot taken by `periodic_budget_check`: the ids of the
campaigns whose status is ACTIVE
(`Campaign.objects.filter(status=ACTIVE)`). -/
def activeIds (db : DB) : List Nat :=
  (db.enum.filter (fun p => p.2.camp.status = Status.ACTIVE)).map
    (fun p => p.1)

/-- Embeds `simulate_spend` (`services.py` line 122) restricted to one
campaign record: return unchanged unless the status is ACTIVE, else
accrue the synthetic amount via `track_spend`.  The randomized amount is
supplied by the caller. -/
def simulate_spend (today : Date) (amount : Money) (r : CampaignRec) :
    CampaignRec :=
  if r.camp.status ≠ Status.ACTIVE then r
  else track_spend today amount r

/-- First loop of `periodic_budget_check` (`services.py` line 217) over
the snapshot ids: pause OUTSIDE_DAYPARTING_HOURS and continue when
dayparting fails, otherwise run `simulate_spend`.  The accrual oracle
`acc` gives each campaign's synthetic spend amount, or `none` when the
accrual raises (the services re-raise every exception), in which case
the loop aborts: the pair's Boolean records whether an exception
escaped, and the returned state keeps the mutations already made. -/
def sweep_accrual_loop (wd t : Nat) (today : Date) (acc : Nat → Option Money) :
    List Nat → DB → DB × Bool
  | [], db => (db, false)
  | i :: is, db =>
      match db.get? i with
      | none => sweep_accrual_loop wd t today acc is db
      | some r =>
          if !r.is_within_dayparting_hours wd t then
            sweep_accrual_loop wd t today acc is
              (modifyAt (fun r0 =>
                { r0 with camp :=
                    r0.camp.pause PauseReason.OUTSIDE_DAYPARTING_HOURS }) i db)
          else
            match acc i with
            | none => (db, true)
            | some amount =>
                sweep_accrual_loop wd t today acc is
                  (modifyAt (simulate_spend today amount) i db)

/-- Second loop of `periodic_budget_check` (`services.py` line 228):
`check_budget_limits` on every campaign of the snapshot. -/
def sweep_budget_loop (today : Date) : List Nat → DB → DB
  | [], db => db
  | i :: is, db =>
      sweep_budget_loop today is (modifyAt (check_budget_limits today) i db)

/-- Embeds `periodic_budget_check` (`services.py` line 208): snapshot the
ACTIVE campaigns, run the dayparting/accrual loop over the snapshot,
then (when no exception escaped) the budget-check loop over the same
snapshot.  The Boolean reports whether the sweep raised. -/
def periodic_budget_check (wd t : Nat) (today : Date)
    (acc : Nat → Option Money) (db : DB) : DB × Bool :=
  let snapshot := activeIds db
  match sweep_accrual_loop wd t today acc snapshot db with
  | (db1, true) => (db1, true)
  | (db1, false) => (sweep_budget_loop today snapshot db1, false)

/-- The status/reason coupling invariant: a campaign is PAUSED exactly
when its `pause_reason` is set. -/
def Campaign.pause_inv (c : Campaign) : Prop :=
  c.status = Status.PAUSED ↔ c.pause_reason ≠ none

instance (c : Campaign) : Decidable c.pause_inv := by
  unfold Campaign.pause_inv
  infer_instance

/-- The invariant over a whole database state. -/
def DBInv (db : DB) : Prop :=
  ∀ r ∈ db, r.camp.pause_inv

instance (db : DB) : Decidable (DBInv db) := by
  unfold DBInv
  infer_instance

/-- Example date used by the concrete witnesses (not the 1st of the
month). -/
def dEx : Date := { month := 3, day := 15 }

/-- An ACTIVE campaign whose spend today sits exactly at its daily
budget (Scenario A boundary: 50.00 spent of a 50.00 budget). -/
def recActive : CampaignRec :=
  { camp := { status := Status.ACTIVE, daily_budget := 5000,
              monthly_budget := 50000, pause_reason := none },
    spends := [{ date := dEx, daily_spend := 5000, monthly_spend := 100 }],
    schedules := [] }

/-- A budget-paused campaign with no spend row for today. -/
def recNoSpend : CampaignRec :=
  { camp := { status := Status.PAUSED, daily_budget := 5000,
              monthly_budget := 50000,
              pause_reason := some PauseReason.DAILY_BUDGET_EXCEEDED },
    spends := [],
    schedules := [] }

/-- Scenario B: PAUSED for DAILY_BUDGET_EXCEEDED with daily spend at
the daily budget and monthly spend below the monthly budget. -/
def recPausedDaily : CampaignRec :=
  { camp := { status := Status.PAUSED, daily_budget := 5000,
              monthly_budget := 50000,
              pause_reason := some PauseReason.DAILY_BUDGET_EXCEEDED },
    spends := [{ date := dEx, daily_spend := 5000, monthly_spend := 4000 }],
    schedules := [] }

/-- Scenario D: a campaign whose only schedule is Monday 09:00–17:00. -/
def recMonday : CampaignRec :=
  { camp := { status := Status.ACTIVE, daily_budget := 5000,
              monthly_budget := 50000, pause_reason := none },
    spends := [],
    schedules := [{ day_of_week := 0, start_time := 540, end_time := 1020,
                    is_active := true }] }

/-- Sweep example: the first active campaign's accrual will fail. -/
def sweepRec0 : CampaignRec :=
  { camp := { status := Status.ACTIVE, daily_budget := 10000,
              monthly_budget := 100000, pause_reason := none },
    spends := [], schedules := [] }

/-- Sweep example: the second active campaign is over its daily budget,
so a budget check would pause it. -/
def sweepRec1 : CampaignRec :=
  { camp := { status := Status.ACTIVE, daily_budget := 5000,
              monthly_budget := 100000, pause_reason := none },
    spends := [{ date := dEx, daily_spend := 5000, monthly_spend := 5000 }],
    schedules := [] }

/-- Sweep example database. -/
def sweepDB : DB := [sweepRec0, sweepRec1]

/-- Accrual oracle for the sweep example: campaign 0's accrual raises,
every other accrual returns 1.00. -/
def sweepAcc : Nat → Option Money :=
  fun i => if i = 0 then none else some 100

/-- A manually paused campaign with nonzero spend, used to compare the
code's forced reset path with the spec's forced monthly reset. -/
def manualDB : DB :=
  [{ camp := { status := Status.PAUSED, daily_budget := 5000,
               monthly_budget := 100000,
               pause_reason := some PauseReason.MANUAL_PAUSE },
     spends := [{ date := { month := 3, day := 10 }, daily_spend := 500,
                  monthly_spend := 700 }],
     schedules := [] }]

/-! Helper lemmas. -/

theorem pause_inv_activate (c : Campaign) : c.activate.pause_inv := by
  simp [Campaign.activate, Campaign.pause_inv]

theorem pause_inv_pause (c : Campaign) (reason : PauseReason) :
    (c.pause reason).pause_inv := by
  simp [Campaign.pause, Campaign.pause_inv]

theorem check_budget_limits_camp_cases (today : Date) (r : CampaignRec) :
    (check_budget_limits today r).camp = r.camp ∨
    (∃ reason, (check_budget_limits today r).camp = r.camp.pause reason) ∨
    (check_budget_limits today r).camp = r.camp.activate := by
  unfold check_budget_limits
  cases hg : r.get_current_spend today with
  | none => exact Or.inl rfl
  | some sp =>
      dsimp only
      split
      · split
        · exact Or.inr (Or.inl ⟨_, rfl⟩)
        · exact Or.inl rfl
      · split
        · split
          · exact Or.inr (Or.inl ⟨_, rfl⟩)
          · exact Or.inl rfl
        · split
          · split
            · exact Or.inr (Or.inr rfl)
            · exact Or.inl rfl
          · exact Or.inl rfl

theorem pause_inv_check_budget_limits (today : Date) (r : CampaignRec)
    (h : r.camp.pause_inv) : (check_budget_limits today r).camp.pause_inv := by
  rcases check_budget_limits_camp_cases today r with he | ⟨reason, he⟩ | he <;>
    rw [he]
  · exact h
  · exact pause_inv_pause _ _
  · exact pause_inv_activate _

theorem track_spend_camp_eq (today : Date) (amount : Money)
    (r : CampaignRec) : ∃ r2 : CampaignRec, r2.camp = r.camp ∧
    track_spend today amount r = check_budget_limits today r2 := by
  unfold track_spend get_or_create_today_spend
  split <;> refine ⟨_, ?_, rfl⟩ <;> rfl

theorem pause_inv_track_spend (today : Date) (amount : Money)
    (r : CampaignRec) (h : r.camp.pause_inv) :
    (track_spend today amount r).camp.pause_inv := by
  obtain ⟨r2, hc, he⟩ := track_spend_camp_eq today amount r
  rw [he]
  exact pause_inv_check_budget_limits today r2 (hc ▸ h)

theorem pause_inv_simulate_spend (today : Date) (amount : Money)
    (r : CampaignRec) (h : r.camp.pause_inv) :
    (simulate_spend today amount r).camp.pause_inv := by
  unfold simulate_spend
  split
  · exact h
  · exact pause_inv_track_spend today amount r h

theorem forall_mem_modifyAt {α : Type} {P : α → Prop} {f : α → α}
    (hf : ∀ a, P a → P (f a)) :
    ∀ (i : Nat) (l : List α), (∀ a ∈ l, P a) → ∀ a ∈ modifyAt f i l, P a := by
  intro i l
  induction l generalizing i with
  | nil => intro _ a ha; cases i <;> simp [modifyAt] at ha
  | cons x xs ih =>
      intro h a ha
      cases i with
      | zero =>
          simp only [modifyAt, List.mem_cons] at ha
          rcases ha with rfl | ha
          · exact hf x (h x (List.mem_cons_self x xs))
          · exact h a (List.mem_cons_of_mem x ha)
      | succ n =>
          simp only [modifyAt, List.mem_cons] at ha
          rcases ha with rfl | ha
          · exact h a (List.mem_cons_self a xs)
          · exact ih n (fun b hb => h b (List.mem_cons_of_mem x hb)) a ha

/-- C9: `Spend.add_spend` is additive and order-independent: accruing
`a` then `b` gives the same daily and monthly totals as accruing `a + b`
in one call. -/
theorem C9_add_spend_additive : ∀ (s : SpendRow) (a b : Money),
    (s.add_spend a).add_spend b = s.add_spend (a + b) := by
  intro s a b
  simp [SpendRow.add_spend, Int.add_assoc]

/-- C10: when a campaign has no spend row for today,
`check_budget_limits` returns it unchanged (so a budget-paused campaign
keeps its status and reason), even though `is_budget_available` is true
for it. -/
theorem C10_no_spend_row_frame : ∀ (today : Date) (r : CampaignRec),
    r.get_current_spend today = none →
    check_budget_limits today r = r ∧ r.is_budget_available today = true := by
  intro today r h
  constructor
  · unfold check_budget_limits
    rw [h]
  · unfold CampaignRec.is_budget_available
    rw [h]

theorem C10_witness :
    recNoSpend.get_current_spend dEx = none ∧
    (check_budget_limits dEx recNoSpend = recNoSpend ∧
     recNoSpend.is_budget_available dEx = true) :=
  ⟨by decide, C10_no_spend_row_frame dEx recNoSpend (by decide)⟩

/-- C1: with a spend row for today, `is_budget_available` is exactly the
conjunction of the two strict comparisons (equality counts as
exhausted), and a budget check on an ACTIVE campaign whose daily spend
equals its daily budget pauses it with DAILY_BUDGET_EXCEEDED. -/
theorem C1_strict_boundary : ∀ (today : Date) (r : CampaignRec)
    (sp : SpendRow), r.get_current_spend today = some sp →
    (r.is_budget_available today =
      (decide (sp.daily_spend < r.camp.daily_budget) &&
       decide (sp.monthly_spend < r.camp.monthly_budget))) ∧
    (r.camp.status = Status.ACTIVE →
     sp.daily_spend = r.camp.daily_budget →
     (check_budget_limits today r).camp.status = Status.PAUSED ∧
     (check_budget_limits today r).camp.pause_reason =
       some PauseReason.DAILY_BUDGET_EXCEEDED) := by
  intro today r sp h
  constructor
  · unfold CampaignRec.is_budget_available
    rw [h]
  · intro hstat heq
    have hge : sp.daily_spend ≥ r.camp.daily_budget := le_of_eq heq.symm
    unfold check_budget_limits
    rw [h]
    simp only [if_pos hge, if_pos hstat]
    exact ⟨rfl, rfl⟩

theorem C1_witness :
    recActive.get_current_spend dEx =
      some { date := dEx, daily_spend := 5000, monthly_spend := 100 } ∧
    recActive.camp.status = Status.ACTIVE ∧
    (recActive.is_budget_available dEx = false ∧
     (check_budget_limits dEx recActive).camp.status = Status.PAUSED ∧
     (check_budget_limits dEx recActive).camp.pause_reason =
       some PauseReason.DAILY_BUDGET_EXCEEDED) := by
  have h := C1_strict_boundary dEx recActive
    { date := dEx, daily_spend := 5000, monthly_spend := 100 } (by decide)
  refine ⟨by decide, by decide, ?_, (h.2 (by decide) (by decide)).1,
    (h.2 (by decide) (by decide)).2⟩
  rw [h.1]
  decide

/-- C3: a budget check on a campaign whose daily spend has reached its
daily budget pauses it with DAILY_BUDGET_EXCEEDED when it is ACTIVE —
with no condition on the monthly fields, so the monthly comparison is
not evaluated even when the monthly budget is also exceeded — and
leaves the record completely unchanged when it is not ACTIVE. -/
theorem C3_daily_precedence : ∀ (today : Date) (r : CampaignRec)
    (sp : SpendRow), r.get_current_spend today = some sp →
    sp.daily_spend ≥ r.camp.daily_budget →
    (r.camp.status = Status.ACTIVE →
      check_budget_limits today r =
        { r with camp := r.camp.pause PauseReason.DAILY_BUDGET_EXCEEDED }) ∧
    (r.camp.status ≠ Status.ACTIVE → check_budget_limits today r = r) := by
  intro today r sp h hge
  constructor
  · intro hstat
    unfold check_budget_limits
    rw [h]
    simp only [if_pos hge, if_pos hstat]
  · intro hstat
    unfold check_budget_limits
    rw [h]
    simp only [if_pos hge, if_neg hstat]

theorem C3_witness :
    recActive.get_current_spend dEx =
      some { date := dEx, daily_spend := 5000, monthly_spend := 100 } ∧
    (5000 : Money) ≥ recActive.camp.daily_budget ∧
    check_budget_limits dEx recActive =
      { recActive with
        camp := recActive.camp.pause PauseReason.DAILY_BUDGET_EXCEEDED } :=
  ⟨by decide, by decide,
    (C3_daily_precedence dEx recActive
      { date := dEx, daily_spend := 5000, monthly_spend := 100 }
      (by decide) (by decide)).1 (by decide)⟩

/-- C5: `is_within_dayparting_hours` is true when the campaign has no
active schedule for the current weekday, otherwise true exactly when the
time lies within `[start_time, end_time]` (both ends inclusive) of some
active schedule for that weekday; concretely, with only a Monday
09:00–17:00 schedule every Tuesday time gives true, Monday 08:59 gives
false and Monday 09:00 gives true. -/
theorem C5_dayparting_hours : ∀ (r : CampaignRec) (wd t : Nat),
    (r.is_within_dayparting_hours wd t = true ↔
      (r.schedules.filter (fun s => s.day_of_week = wd && s.is_active) = [] ∨
       ∃ s ∈ r.schedules.filter (fun s => s.day_of_week = wd && s.is_active),
         s.start_time ≤ t ∧ t ≤ s.end_time)) ∧
    recMonday.is_within_dayparting_hours 1 t = true ∧
    recMonday.is_within_dayparting_hours 0 539 = false ∧
    recMonday.is_within_dayparting_hours 0 540 = true := by
  intro r wd t
  refine ⟨?_, rfl, by decide, by decide⟩
  unfold CampaignRec.is_within_dayparting_hours
  cases hl : r.schedules.filter (fun s => s.day_of_week = wd && s.is_active)
    with
  | nil => simp [hl]
  | cons a as =>
      simp only [hl, List.isEmpty_cons, if_neg]
      simp [List.any_eq_true]

theorem pause_inv_readmit_daily (today : Date) (r : CampaignRec)
    (h : r.camp.pause_inv) :
    (r.readmit_daily today).camp.pause_inv := by
  unfold CampaignRec.readmit_daily
  split
  · split
    · exact pause_inv_activate _
    · exact h
  · exact h

theorem pause_inv_readmit_monthly (today : Date) (r : CampaignRec)
    (h : r.camp.pause_inv) :
    (r.readmit_monthly today).camp.pause_inv := by
  unfold CampaignRec.readmit_monthly
  split
  · split
    · exact pause_inv_activate _
    · exact h
  · exact h

theorem DBInv_daily_reset (today : Date) (db : DB) (h : DBInv db) :
    DBInv (daily_reset today db) := by
  intro r hr
  unfold daily_reset at hr
  rcases List.mem_map.1 hr with ⟨r1, hr1, rfl⟩
  rcases List.mem_map.1 hr1 with ⟨r0, hr0, rfl⟩
  exact pause_inv_readmit_daily today _ (h r0 hr0)

theorem DBInv_monthly_reset (today : Date) (db : DB) (h : DBInv db) :
    DBInv (monthly_reset today db) := by
  unfold monthly_reset
  split
  · exact h
  · intro r hr
    rcases List.mem_map.1 hr with ⟨r1, hr1, rfl⟩
    rcases List.mem_map.1 hr1 with ⟨r0, hr0, rfl⟩
    exact pause_inv_readmit_monthly today _ (h r0 hr0)

theorem DBInv_reset_all_budgets (db : DB) (h : DBInv db) :
    DBInv (reset_all_budgets db) := by
  intro r hr
  unfold reset_all_budgets at hr
  rcases List.mem_map.1 hr with ⟨r1, hr1, hre⟩
  rcases List.mem_map.1 hr1 with ⟨r0, hr0, rfl⟩
  subst hre
  split
  · exact pause_inv_activate _
  · exact h r0 hr0

theorem DBInv_sweep_accrual_loop (wd t : Nat) (today : Date)
    (acc : Nat → Option Money) :
    ∀ (ids : List Nat) (db : DB), DBInv db →
      DBInv (sweep_accrual_loop wd t today acc ids db).1 := by
  intro ids
  induction ids with
  | nil => intro db h; exact h
  | cons i is ih =>
      intro db h
      unfold sweep_accrual_loop
      cases hg : db.get? i with
      | none => exact ih db h
      | some r =>
          dsimp only
          split
          · refine ih _ (forall_mem_modifyAt ?_ i db h)
            intro a _
            exact pause_inv_pause _ _
          · cases hacc : acc i with
            | none => exact h
            | some amount =>
                refine ih _ (forall_mem_modifyAt ?_ i db h)
                intro a ha
                exact pause_inv_simulate_spend today amount a ha

theorem DBInv_sweep_budget_loop (today : Date) :
    ∀ (ids : List Nat) (db : DB), DBInv db →
      DBInv (sweep_budget_loop today ids db) := by
  intro ids
  induction ids with
  | nil => intro db h; exact h
  | cons i is ih =>
      intro db h
      unfold sweep_budget_loop
      refine ih _ (forall_mem_modifyAt ?_ i db h)
      intro a ha
      exact pause_inv_check_budget_limits today a ha

/-- C2: the `status == PAUSED ⇔ pause_reason set` invariant holds for a
newly created campaign and is preserved by activate, pause,
check_budget_limits, track_spend, daily_reset, monthly_reset, the
periodic sweep (also on its failure path) and reset_all_budgets. -/
theorem C2_status_reason_coupling :
    (∀ db mb : Money, (Campaign.mk_default db mb).pause_inv) ∧
    (∀ c : Campaign, c.activate.pause_inv) ∧
    (∀ (c : Campaign) (reason : PauseReason), (c.pause reason).pause_inv) ∧
    (∀ (today : Date) (r : CampaignRec), r.camp.pause_inv →
      (check_budget_limits today r).camp.pause_inv) ∧
    (∀ (today : Date) (amount : Money) (r : CampaignRec),
      r.camp.pause_inv → (track_spend today amount r).camp.pause_inv) ∧
    (∀ (today : Date) (db : DB), DBInv db → DBInv (daily_reset today db)) ∧
    (∀ (today : Date) (db : DB), DBInv db → DBInv (monthly_reset today db)) ∧
    (∀ (wd t : Nat) (today : Date) (acc : Nat → Option Money) (db : DB),
      DBInv db → DBInv (periodic_budget_check wd t today acc db).1) ∧
    (∀ db : DB, DBInv db → DBInv (reset_all_budgets db)) := by
  refine ⟨?_, pause_inv_activate, pause_inv_pause,
    pause_inv_check_budget_limits, pause_inv_track_spend,
    DBInv_daily_reset, DBInv_monthly_reset, ?_, DBInv_reset_all_budgets⟩
  · intro db mb
    simp [Campaign.mk_default, Campaign.pause_inv]
  · intro wd t today acc db h
    unfold periodic_budget_check
    dsimp only
    cases hs : sweep_accrual_loop wd t today acc (activeIds db) db with
    | mk db1 raised =>
        have h1 : DBInv db1 := by
          have := DBInv_sweep_accrual_loop wd t today acc (activeIds db) db h
          rw [hs] at this
          exact this
        cases raised
        · exact DBInv_sweep_budget_loop today (activeIds db) db1 h1
        · exact h1

theorem C2_witness :
    (Campaign.mk_default 5000 50000).pause_inv ∧
    recActive.camp.pause_inv ∧
    (check_budget_limits dEx recActive).camp.pause_inv ∧
    (track_spend dEx 100 recActive).camp.pause_inv ∧
    DBInv (daily_reset dEx [recPausedDaily]) ∧
    DBInv (monthly_reset dEx [recPausedDaily]) ∧
    DBInv (periodic_budget_check 0 0 dEx sweepAcc sweepDB).1 ∧
    DBInv (reset_all_budgets manualDB) :=
  ⟨C2_status_reason_coupling.1 5000 50000, by decide,
   C2_status_reason_coupling.2.2.2.1 dEx recActive (by decide),
   C2_status_reason_coupling.2.2.2.2.1 dEx 100 recActive (by decide),
   C2_status_reason_coupling.2.2.2.2.2.1 dEx [recPausedDaily] (by decide),
   C2_status_reason_coupling.2.2.2.2.2.2.1 dEx [recPausedDaily] (by decide),
   C2_status_reason_coupling.2.2.2.2.2.2.2.1 0 0 dEx sweepAcc sweepDB
     (by decide),
   C2_status_reason_coupling.2.2.2.2.2.2.2.2 manualDB (by decide)⟩

theorem readmit_daily_spends_eq (today : Date) (r : CampaignRec) :
    (r.readmit_daily today).spends = r.spends := by
  unfold CampaignRec.readmit_daily
  split
  · split <;> rfl
  · rfl

theorem map_zero_daily_idem (l : List SpendRow) :
    (l.map SpendRow.zero_daily).map SpendRow.zero_daily =
      l.map SpendRow.zero_daily := by
  rw [List.map_map]
  apply List.map_congr_left
  intro s _
  rfl

theorem zero_daily_spends_of_fixed (x : CampaignRec)
    (h : x.spends.map SpendRow.zero_daily = x.spends) :
    x.zero_daily_spends = x := by
  unfold CampaignRec.zero_daily_spends
  rw [h]

theorem get_current_spend_zero_daily (today : Date) (r : CampaignRec) :
    r.zero_daily_spends.get_current_spend today =
      (r.get_current_spend today).map SpendRow.zero_daily := by
  unfold CampaignRec.get_current_spend CampaignRec.zero_daily_spends
  dsimp only
  rw [List.filter_map, List.head?_map]
  rfl

theorem readmit_daily_result_cases (today : Date) (x : CampaignRec) :
    x.readmit_daily today = { x with camp := x.camp.activate } ∨
    x.readmit_daily today = x := by
  unfold CampaignRec.readmit_daily
  split
  · split
    · exact Or.inl rfl
    · exact Or.inr rfl
  · exact Or.inr rfl

theorem readmit_daily_of_not_paused (today : Date) (x : CampaignRec)
    (h : x.camp.status ≠ Status.PAUSED) : x.readmit_daily today = x := by
  unfold CampaignRec.readmit_daily
  simp [h]

theorem readmit_daily_idem (today : Date) (x : CampaignRec) :
    (x.readmit_daily today).readmit_daily today = x.readmit_daily today := by
  rcases readmit_daily_result_cases today x with heq | heq
  · rw [heq]
    exact readmit_daily_of_not_paused today _
      (by simp [Campaign.activate])
  · simp only [heq]

theorem zero_daily_of_readmit_zero (today : Date) (r : CampaignRec) :
    (r.zero_daily_spends.readmit_daily today).zero_daily_spends =
      r.zero_daily_spends.readmit_daily today := by
  apply zero_daily_spends_of_fixed
  rw [readmit_daily_spends_eq]
  exact map_zero_daily_idem r.spends

/-- C4: `daily_reset` zeroes the daily spend of every spend row, and a
campaign paused for DAILY_BUDGET_EXCEEDED becomes ACTIVE with its
reason cleared exactly when `is_budget_available` holds after the
zeroing, which — given a spend row for today and a positive daily
budget — is exactly `monthly_spend < monthly_budget`. -/
theorem C4_daily_reset_behavior : ∀ (today : Date) (db : DB),
    (∀ r ∈ daily_reset today db, ∀ s ∈ r.spends, s.daily_spend = 0) ∧
    (∀ (i : Nat) (r : CampaignRec), db.get? i = some r →
      r.camp.status = Status.PAUSED →
      r.camp.pause_reason = some PauseReason.DAILY_BUDGET_EXCEEDED →
      (daily_reset today db).get? i = some
        (if r.zero_daily_spends.is_budget_available today = true then
          { r.zero_daily_spends with camp := r.camp.activate }
        else r.zero_daily_spends)) ∧
    (∀ (r : CampaignRec) (sp : SpendRow),
      r.get_current_spend today = some sp →
      0 < r.camp.daily_budget →
      r.zero_daily_spends.is_budget_available today =
        decide (sp.monthly_spend < r.camp.monthly_budget)) := by
  intro today db
  refine ⟨?_, ?_, ?_⟩
  · intro r hr s hs
    unfold daily_reset at hr
    rcases List.mem_map.1 hr with ⟨r1, hr1, rfl⟩
    rcases List.mem_map.1 hr1 with ⟨r0, _, rfl⟩
    rw [readmit_daily_spends_eq] at hs
    unfold CampaignRec.zero_daily_spends at hs
    rcases List.mem_map.1 hs with ⟨s0, _, rfl⟩
    rfl
  · intro i r hget hstat hreason
    unfold daily_reset
    rw [List.get?_map, List.get?_map, hget]
    dsimp only [Option.map]
    congr 1
    unfold CampaignRec.readmit_daily
    have hc : (decide (r.zero_daily_spends.camp.status = Status.PAUSED) &&
        decide (r.zero_daily_spends.camp.pause_reason =
          some PauseReason.DAILY_BUDGET_EXCEEDED)) = true := by
      simp [CampaignRec.zero_daily_spends, hstat, hreason]
    rw [if_pos hc]
    split <;> rfl
  · intro r sp hrow hdb
    unfold CampaignRec.is_budget_available
    rw [get_current_spend_zero_daily, hrow]
    dsimp only [Option.map, SpendRow.zero_daily]
    simp [CampaignRec.zero_daily_spends, hdb]

theorem C4_witness :
    (daily_reset dEx [recPausedDaily]).get? 0 = some
      (if recPausedDaily.zero_daily_spends.is_budget_available dEx = true then
        { recPausedDaily.zero_daily_spends with
          camp := recPausedDaily.camp.activate }
      else recPausedDaily.zero_daily_spends) ∧
    recPausedDaily.zero_daily_spends.is_budget_available dEx =
      decide ((4000 : Money) < 50000) :=
  ⟨(C4_daily_reset_behavior dEx [recPausedDaily]).2.1 0 recPausedDaily
      (by decide) (by decide) (by decide),
   (C4_daily_reset_behavior dEx [recPausedDaily]).2.2 recPausedDaily
      { date := dEx, daily_spend := 5000, monthly_spend := 4000 }
      (by decide) (by decide)⟩

/-- C8: `daily_reset` is idempotent — running it twice from any state
produces the same spend rows and campaign statuses as running it
once. -/
theorem C8_daily_reset_idempotent : ∀ (today : Date) (db : DB),
    daily_reset today (daily_reset today db) = daily_reset today db := by
  intro today db
  unfold daily_reset
  simp only [List.map_map]
  apply List.map_congr_left
  intro r _
  show ((r.zero_daily_spends.readmit_daily today).zero_daily_spends).readmit_daily
      today = r.zero_daily_spends.readmit_daily today
  rw [zero_daily_of_readmit_zero]
  exact readmit_daily_idem today _

/-- C6 counterexample: in a two-campaign sweep where campaign 0's
accrual raises and campaign 1 is ACTIVE over its daily budget, the
sweep returns with the raised flag set and the state unchanged —
campaign 1 is still ACTIVE although its budget check (which the claim
says must still run) would have paused it. -/
theorem C6_counterexample :
    periodic_budget_check 0 0 dEx sweepAcc sweepDB = (sweepDB, true) ∧
    (sweepDB.get? 1).map (fun r => r.camp.status) = some Status.ACTIVE ∧
    (sweepDB.get? 1).map (fun r => (check_budget_limits dEx r).camp.status) =
      some Status.PAUSED := by
  decide

/-- C6 amended: a failure raised while evaluating one campaign's
accrual is not caught at the per-campaign boundary: it propagates out of
`periodic_budget_check` and the remaining campaigns of the pass are not
evaluated — when the first campaign of the ACTIVE snapshot passes
dayparting and its accrual raises, the sweep ends with the exception
flag set and every campaign unchanged. -/
theorem C6_sweep_abort : ∀ (wd t : Nat) (today : Date)
    (acc : Nat → Option Money) (db : DB) (i : Nat) (is : List Nat)
    (r : CampaignRec),
    activeIds db = i :: is →
    db.get? i = some r →
    r.is_within_dayparting_hours wd t = true →
    acc i = none →
    periodic_budget_check wd t today acc db = (db, true) := by
  intro wd t today acc db i is r hsnap hget hday hacc
  unfold periodic_budget_check
  dsimp only
  rw [hsnap]
  rw [List.get?_eq_getElem?] at hget
  simp [sweep_accrual_loop, hget, hday, hacc]

theorem C6_sweep_abort_witness :
    periodic_budget_check 0 0 dEx sweepAcc sweepDB = (sweepDB, true) :=
  C6_sweep_abort 0 0 dEx sweepAcc sweepDB 0 [1] sweepRec0
    (by decide) (by decide) (by decide) (by decide)

/-- C7 counterexample: `monthly_reset` invoked on a non-first day
mutates nothing (it has no force parameter at all), and the code's only
forced reset path — the `reset_budgets` command with `--force` — does
not perform the monthly reset the claim describes: on a manually paused
campaign with nonzero daily spend the two disagree. -/
theorem C7_counterexample :
    monthly_reset dEx manualDB = manualDB ∧
    reset_budgets_handle true dEx manualDB ≠
      spec_monthly_reset true dEx manualDB := by
  decide

/-- C7 amended: `monthly_reset` performs no mutation unless invoked on
the first calendar day of the month, and it has no force parameter; the
repository's force bypass lives in the `reset_budgets` management
command, whose `--force` flag bypasses the same day-of-month guard but
performs the unconditional reset-all (zero both spend fields everywhere
and activate every PAUSED campaign) rather than the monthly reset. -/
theorem C7_monthly_reset_guard : ∀ (today : Date) (db : DB),
    (today.day ≠ 1 → monthly_reset today db = db) ∧
    (today.day ≠ 1 → reset_budgets_handle false today db = db) ∧
    reset_budgets_handle true today db = reset_all_budgets db := by
  intro today db
  refine ⟨?_, ?_, ?_⟩
  · intro h
    unfold monthly_reset
    rw [if_pos h]
  · intro h
    unfold reset_budgets_handle
    rw [if_pos]
    simp [h]
  · unfold reset_budgets_handle reset_all_budgets
    rw [if_neg]
    simp

theorem C7_monthly_reset_guard_witness :
    monthly_reset dEx manualDB = manualDB ∧
    reset_budgets_handle false dEx manualDB = manualDB ∧
    reset_budgets_handle true dEx manualDB = reset_all_budgets manualDB :=
  ⟨(C7_monthly_reset_guard dEx manualDB).1 (by decide),
   (C7_monthly_reset_guard dEx manualDB).2.1 (by decide),
   (C7_monthly_reset_guard dEx manualDB).2.2⟩

end BudgetSystem
